import Mathlib

set_option maxRecDepth 100000
set_option maxHeartbeats 1000000

/-!
Verification of the gesture pipeline in `src/components/GestureComponent.tsx`
(Tune-Crafter). Each TypeScript function the claims mention is shallowly
embedded below; numbers are modelled as exact rationals, JavaScript arrays as
`List`, an absent/NaN `z` field as `Option ℚ`, and JavaScript array writes
past the end of the array (which extend it, introducing holes) as `jsSet`.
-/

namespace TuneCrafter

/-- JavaScript truthiness of a numeric field that may be absent (`undefined`)
or the result of arithmetic on `undefined` (NaN): `none` is falsy, a number
is truthy iff it is nonzero. -/
def truthy : Option ℚ → Bool
  | none => false
  | some v => decide (v ≠ 0)

/-- JavaScript subtraction where either operand may be `undefined`/NaN: any
non-number operand yields NaN (`none`). -/
def jsSub : Option ℚ → Option ℚ → Option ℚ
  | some a, some b => some (a - b)
  | _, _ => none

/-- JavaScript `a || b` on a numeric field `a` that may be absent: returns
`a` when truthy, else `b`. -/
def jsOr (a : Option ℚ) (b : ℚ) : ℚ :=
  match a with
  | some v => if v = 0 then b else v
  | none => b

/-- JavaScript `Number.prototype.toFixed(0)` in exact arithmetic: round to
the nearest integer, ties toward plus infinity. -/
def jsToFixed0 (q : ℚ) : ℤ := ⌊q + 1 / 2⌋

/-- JavaScript array element assignment `a[i] = v`. If `i` is below the
current length the slot is overwritten; otherwise the array is extended to
length `i + 1`, with holes (`none`) for the skipped slots. -/
def jsSet (l : List (Option ℚ)) (i : ℕ) (v : ℚ) : List (Option ℚ) :=
  if i < l.length then l.set i (some v)
  else l ++ List.replicate (i - l.length) none ++ [some v]

/-! ## Windowing (`extractFeatures`, lines 119–134)

```
const feats_per_t = 3;
const normal_seq_len = 10;
const features = new Array(feats_per_t * normal_seq_len).fill(0.0);
for (let t = 0; t < buffer.length; t++) {
  const point = buffer[t];
  if (point.length > 0) {
    for (let f = 0; f < point.length; f++) {
      features[feats_per_t * t + f] = point[f];
    }
  }
}
return features;
```
The inner loop writes `point[0..]` at consecutive indices starting at
`3 * t`; the outer loop has no bound other than `buffer.length`. -/

/-- The inner `for (f …)` loop: write the entries of `point` at consecutive
indices starting at `base = 3 * t`. -/
def writePoint : List (Option ℚ) → ℕ → List ℚ → List (Option ℚ)
  | feats, _, [] => feats
  | feats, base, v :: rest => writePoint (jsSet feats base v) (base + 1) rest

/-- One iteration of the outer `for (t …)` loop, including the
`point.length > 0` guard. -/
def writeFrame (feats : List (Option ℚ)) (t : ℕ) (point : List ℚ) : List (Option ℚ) :=
  if point.length > 0 then writePoint feats (3 * t) point else feats

/-- The outer loop of `extractFeatures`, with `t` the current timestep. -/
def extractFeaturesAux : List (Option ℚ) → ℕ → List (List ℚ) → List (Option ℚ)
  | feats, _, [] => feats
  | feats, t, point :: rest => extractFeaturesAux (writeFrame feats t point) (t + 1) rest

/-- `extractFeatures` (lines 119–134): 30 slots zero-initialised
(`feats_per_t = 3`, `normal_seq_len = 10`), then every buffered frame is
written at offset `3 * t`. -/
def extractFeatures (buffer : List (List ℚ)) : List (Option ℚ) :=
  extractFeaturesAux (List.replicate 30 (some 0)) 0 buffer

/-! ## Landmarks and normalization (`normalizeCoordinates`, lines 72–79) -/

/-- One hand landmark: `x`/`y` are numbers, `z` may be absent (`undefined`)
or, in normalized form, NaN — both modelled as `none`. -/
structure Pt where
  x : ℚ
  y : ℚ
  z : Option ℚ
deriving DecidableEq, Repr

/-- The value JavaScript property access would see on a missing element. -/
def ptZero : Pt := ⟨0, 0, none⟩

/-- `normalizeCoordinates` (lines 72–79):
```
const basePoint = landmarks[0];
return landmarks.map((point) => ({
  x: (point.x - basePoint.x),
  y: (point.y - basePoint.y),
  z: point.z ? (point.z - basePoint.z) : 0.0
}));
```
Note the `z` branch is guarded by the *truthiness* of `point.z` (absent or
zero both select `0.0`), and `point.z - basePoint.z` is NaN when
`basePoint.z` is absent. -/
def normPt (basePoint point : Pt) : Pt :=
  ⟨point.x - basePoint.x, point.y - basePoint.y,
   if truthy point.z then jsSub point.z basePoint.z else some 0⟩

def normalizeCoordinates (landmarks : List Pt) : List Pt :=
  landmarks.map (normPt (landmarks.headD ptZero))

/-- Translate a landmark by a constant offset; an absent `z` stays absent. -/
def translate (dx dy dz : ℚ) (p : Pt) : Pt :=
  ⟨p.x + dx, p.y + dy, p.z.map (fun v => v + dz)⟩

/-- Decidable side condition for the amended translation-invariance claim:
the `z` of the point, when present, is nonzero both before and after adding
`dz` (so the truthiness test in `normalizeCoordinates` resolves the same
way on both sides). -/
def zTruthyStable (dz : ℚ) (p : Pt) : Bool :=
  match p.z with
  | none => true
  | some v => decide (v ≠ 0) && decide (v + dz ≠ 0)

/-! ## Single-keypoint features (`extractGestureFeatures`, lines 385–390)

```
if (!landmarks || landmarks.length === 0) return [0.0, 0.0, 0.0, 0.0, 0.0];
const keypoint = landmarks[8];
return [keypoint.x, keypoint.y, keypoint.z || 0.0];
```
A `null`/`undefined` argument is modelled as `none`. For a non-empty list
with fewer than 9 elements, `landmarks[8]` is `undefined` and the property
access `keypoint.x` throws a `TypeError`. -/

inductive JsError where
  | typeError
deriving DecidableEq, Repr

/-- `extractGestureFeatures` (lines 385–390). -/
def extractGestureFeatures (landmarks : Option (List Pt)) : Except JsError (List ℚ) :=
  match landmarks with
  | none => .ok [0, 0, 0, 0, 0]
  | some l =>
    if l.length = 0 then .ok [0, 0, 0, 0, 0]
    else
      match l.get? 8 with
      | none => .error .typeError
      | some keypoint => .ok [keypoint.x, keypoint.y, jsOr keypoint.z 0]

/-! ## Volume mapping (`handleVolume`, lines 367–382)

```
let currentVolume: number = 1 - landmarks[8].x;
setVolume(Math.min(100, parseFloat((currentVolume * 100).toFixed(0))));
setIsVolumeVisible(true);
waveform?.setVolume(currentVolume);
```
The displayed percent is capped above at 100 by `Math.min` but has no lower
bound; the audio engine receives the raw float. -/

/-- The integer percent handed to `setVolume` for display. -/
def volumeDisplayed (x : ℚ) : ℤ := min 100 (jsToFixed0 ((1 - x) * 100))

/-- The raw volume handed to `waveform.setVolume`. -/
def volumeRaw (x : ℚ) : ℚ := 1 - x

/-- Stated from the words of the claim (for comparison with `volumeDisplayed`):
the displayed percent as the claim states it, "round((1 - x) * 100)
clamped to the interval [0,100]". -/
def claimVolumeDisplayed (x : ℚ) : ℤ := max 0 (min 100 (jsToFixed0 ((1 - x) * 100)))

/-! ## Action dispatch (`performAction`, lines 298–318)

The recognizer result holds parallel arrays `gestures`, `handednesses`,
`landmarks`, indexed together in the per-hand loop; they are collapsed here
into one list of `Hand` records. The external gesture FSM (`GestureModel`)
and its query methods are modelled as a pure oracle, and the observable
calls on the status field, the FSM and the audio engine as an effect
trace. -/

structure Hand where
  category : String
  handedness : String
  landmarks : List Pt
deriving DecidableEq, Repr

structure DetectionFrame where
  hands : List Hand
deriving DecidableEq, Repr

/-- Responses of the external `GestureModel` FSM, one per query method the
dispatcher consults (`getCutText`, `getDrumSound`, `runPlayPause`,
`getSpeedText`, `getSpeedValue`, `isVolumeStarted`). -/
structure FsmOracle where
  cutText : Option String
  getDrumSound : List Pt → Option String
  runPlayPause : Bool
  getSpeedText : List Pt → String → Option String
  speedValue : ℚ
  isVolumeStarted : Bool

/-- One observable call made while dispatching a frame: a write to the
status field, a state-changing call on the gesture FSM, or a call on the
audio/waveform engine (plus the volume display update). -/
inductive Effect where
  | statusWrite (text : String)
  | fsmUpdate (category handedness : String)
  | fsmLoopRegions
  | audioPlaySound (sound : String)
  | audioPlayPause
  | audioSetRate (rate : ℚ)
  | audioSetVolume (v : ℚ)
  | displayVolume (percent : ℤ)
deriving DecidableEq, Repr

def idleStatus : String := "🙌"

def drumStatus : String := "🥁 ✅"

/-- The per-hand body of the loop in `performAction` (lines 306–316):
`detectAction` (FSM update then the cut-text status write), `handleDrums`
(left hand only), `handlePlayPause`, `handleEffects`, `handleRegions`,
`handleVolume`, in source order. `wf` is whether the optional `waveform`
collaborator is present (`waveform?.…` calls are skipped without it). -/
def handBody (o : FsmOracle) (wf : Bool) (h : Hand) : List Effect :=
  [Effect.fsmUpdate h.category h.handedness] ++
  (match o.cutText with
   | some t => [Effect.statusWrite t]
   | none => []) ++
  (if h.handedness == "Left" then
    match o.getDrumSound h.landmarks with
    | some sound => [Effect.audioPlaySound sound, Effect.statusWrite drumStatus]
    | none => []
   else []) ++
  (if wf && o.runPlayPause then [Effect.audioPlayPause] else []) ++
  (match o.getSpeedText h.landmarks h.handedness with
   | some t =>
     [Effect.statusWrite t] ++ (if wf then [Effect.audioSetRate o.speedValue] else [])
   | none => []) ++
  (if wf then [Effect.fsmLoopRegions] else []) ++
  (if o.isVolumeStarted then
    [Effect.displayVolume (volumeDisplayed (h.landmarks.getD 8 ptZero).x)] ++
    (if wf then [Effect.audioSetVolume (volumeRaw (h.landmarks.getD 8 ptZero).x)] else [])
   else [])

/-- `performAction` (lines 298–318): with no result nothing happens; with a
result and zero hands only the idle indicator is written; otherwise every
hand is dispatched in detection order. -/
def performAction (o : FsmOracle) (wf : Bool) (results : Option DetectionFrame) :
    List Effect :=
  match results with
  | none => []
  | some r =>
    (if r.hands.length == 0 then [Effect.statusWrite idleStatus] else []) ++
    (if r.hands.length > 0 then (r.hands.map (handBody o wf)).flatten else [])

/-- An oracle with every optional response off and the volume gesture
active, used to exhibit the volume path of the dispatcher. -/
def oVol : FsmOracle :=
  ⟨none, fun _ => none, false, fun _ _ => none, 1, true⟩

/-- An oracle with every response off. -/
def oIdle : FsmOracle :=
  ⟨none, fun _ => none, false, fun _ _ => none, 0, false⟩

/-! ## Frame loop (`predictWebcam`, lines 229–263)

```
if (gestureRecognizer) {
  setupCanvas();
  if (video && video.videoHeight > 0 && video.videoWidth > 0) {
    try { … recognize, store, classify, draw, performAction … }
    catch (error) { console.error(…); }
  } else { console.log("Video not ready …"); }
  requestAnimationFrame(predictWebcam);
} else {
  console.log("Gesture recognizer not initialized.");
}
```
`requestAnimationFrame` is the last statement of the *ready* branch only:
the not-ready branch logs and schedules nothing. -/

structure LoopOutcome where
  rearmed : Bool
  recognized : Bool
  dispatched : Bool
  errorCaught : Bool
  loggedVideoNotReady : Bool
  loggedNotInitialized : Bool
deriving DecidableEq, Repr

/-- One iteration of `predictWebcam` as a function of whether the recognizer
is ready, the video has dimensions, and the recognition call throws. -/
def predictWebcamStep (recognizerReady videoReady recognitionThrows : Bool) : LoopOutcome :=
  if recognizerReady then
    if videoReady then
      if recognitionThrows then
        { rearmed := true, recognized := false, dispatched := false,
          errorCaught := true, loggedVideoNotReady := false, loggedNotInitialized := false }
      else
        { rearmed := true, recognized := true, dispatched := true,
          errorCaught := false, loggedVideoNotReady := false, loggedNotInitialized := false }
    else
      { rearmed := true, recognized := false, dispatched := false,
        errorCaught := false, loggedVideoNotReady := true, loggedNotInitialized := false }
  else
    { rearmed := false, recognized := false, dispatched := false,
      errorCaught := false, loggedVideoNotReady := false, loggedNotInitialized := true }

/-! ## Recording sessions (lines 45–58, 82–100, 103–116, 137–153)

Per the design notes of the component, the React state cells
(`isRecording` with its mirror ref, `recordingStartTime`, `frameBuffer`,
`recordedGestures`, `gestureLabel`) are modelled as fields of one state
record holding their current values. `startRecording` schedules a
`setTimeout` for 2000 ms later whose callback re-issues the toggle if
still recording; the `() => clearTimeout(timeoutID)` closure it returns is
*discarded* by its caller (`handleRecordButtonClick` ignores the return
value), so a scheduled timer is never cancelled — it is kept in `timers`
until it fires. `stops` is specification-only instrumentation recording
the times at which a Recording→Idle transition ran. -/

structure Gesture where
  x : List (List ℚ)
  y : String
  duration : ℕ
deriving DecidableEq, Repr

structure RecState where
  isRecording : Bool
  startTime : Option ℕ
  frameBuffer : List (List ℚ)
  gestures : List Gesture
  label : String
  timers : List ℕ
  stops : List ℕ
deriving DecidableEq, Repr

/-- Truthiness of `recordingStartTime` (a `number | null`): `null` and `0`
are falsy. -/
def timeTruthy : Option ℕ → Bool
  | none => false
  | some t => decide (t ≠ 0)

/-- `startRecording` (lines 82–100): set the flag, clear the buffer, stamp
the start time and schedule the 2000 ms auto-stop timer. The cleanup
closure it returns is dropped by the caller, so the timer stays pending. -/
def startRecording (now : ℕ) (s : RecState) : RecState :=
  { s with isRecording := true, frameBuffer := [], startTime := some now,
           timers := s.timers ++ [now + 2000] }

/-- `stopRecording` (lines 137–153): when recording, clear the flag, compute
`duration = now - (recordingStartTime || 0)`, append
`{ x: frameBuffer, y: "gestureLabel", duration }` when the buffer is
non-empty (note the *string literal* `"gestureLabel"`, line 143), and null
the start time. -/
def stopRecording (now : ℕ) (s : RecState) : RecState :=
  if s.isRecording then
    { s with isRecording := false,
             gestures :=
               if s.frameBuffer.length > 0 then
                 s.gestures ++ [⟨s.frameBuffer, "gestureLabel", now - s.startTime.getD 0⟩]
               else s.gestures,
             startTime := none,
             stops := s.stops ++ [now] }
  else s

/-- `handleRecordButtonClick` (lines 45–58): toggle on the current value of
the recording flag. -/
def handleRecordButtonClick (now : ℕ) (s : RecState) : RecState :=
  if s.isRecording then stopRecording now s else startRecording now s

/-- The `setTimeout` callback (lines 89–96): when it fires, re-issue the
toggle only if the recording flag is still set. -/
def fireTimer (deadline : ℕ) (s : RecState) : RecState :=
  if s.isRecording then handleRecordButtonClick deadline s else s

/-- `captureFrame` (lines 103–116): append the features of the frame while
`isRecording && recordingStartTime` is truthy. -/
def captureFrame (feat : List ℚ) (s : RecState) : RecState :=
  if s.isRecording && timeTruthy s.startTime then
    { s with frameBuffer := s.frameBuffer ++ [feat] }
  else s

/-- External stimuli of a session: a record-button toggle or a captured
frame (carrying its already-extracted features). -/
inductive Ext where
  | toggle
  | capture (feat : List ℚ)
deriving DecidableEq, Repr

/-- Fire every pending timer whose deadline lies strictly before `t`, each
at its own deadline, in scheduling order. -/
def fireDue (t : ℕ) (s : RecState) : RecState :=
  (s.timers.filter (fun d => decide (d < t))).foldl (fun st d => fireTimer d st)
    { s with timers := s.timers.filter (fun d => !(decide (d < t))) }

/-- Process one externally timed event: first let due timers fire, then
apply the event. -/
def stepEvent (s : RecState) (te : ℕ × Ext) : RecState :=
  let s1 := fireDue te.1 s
  match te.2 with
  | .toggle => handleRecordButtonClick te.1 s1
  | .capture feat => captureFrame feat s1

/-- After the last external event, every remaining timer eventually fires
at its deadline. -/
def fireAll (s : RecState) : RecState :=
  s.timers.foldl (fun st d => fireTimer d st) { s with timers := [] }

def initState : RecState := ⟨false, none, [], [], "", [], []⟩

/-- Run a chronologically ordered list of timed external events from the
initial state, then let the remaining timers fire. -/
def run (evs : List (ℕ × Ext)) : RecState :=
  fireAll (evs.foldl stepEvent initState)

/-! ## Training (`trainModel`, lines 416–468)

The tensor construction and `model.fit` happen in the external tfjs
library; the fitting run (which resolves asynchronously and is the only
part guarded by `.then`/`.catch`) is modelled as an oracle returning
either a trained classifier or an error. On success `setClassifier`
replaces the current classifier; on a caught failure only the error is
logged; with no recorded gestures nothing but a log happens. -/

inductive TrainLog where
  | skippedEmpty
  | failed
  | succeeded
deriving DecidableEq, Repr

/-- `recordedGestures.map(data => data.x.flat())` (the `!== null` filter on
line 429 keeps everything, since the map always produces an array). -/
def trainInputs (gs : List Gesture) : List (List ℚ) :=
  gs.map (fun g => g.x.flatten)

/-- `recordedGestures.map(data => data.y === "gestureLabel" ? [1,0,0,0] : [0,1,0,0])`. -/
def trainLabels (gs : List Gesture) : List (List ℚ) :=
  gs.map (fun g => if g.y = "gestureLabel" then [1, 0, 0, 0] else [0, 1, 0, 0])

/-- `trainModel` (lines 416–468) with the asynchronous fit as an oracle:
returns the classifier state after the run together with the logged
outcome. -/
def trainModel {α : Type} (fit : List (List ℚ) → List (List ℚ) → Except String α)
    (recordedGestures : List Gesture) (classifier : Option α) : Option α × TrainLog :=
  if recordedGestures.length > 0 then
    match fit (trainInputs recordedGestures) (trainLabels recordedGestures) with
    | .ok m => (some m, .succeeded)
    | .error _ => (classifier, .failed)
  else (classifier, .skippedEmpty)

/-! ## Supporting lemmas for the windowing function -/

theorem jsSet_length (l : List (Option ℚ)) (i : ℕ) (v : ℚ) :
    (jsSet l i v).length = max l.length (i + 1) := by
  unfold jsSet
  split
  · rw [List.length_set]; omega
  · simp only [List.length_append, List.length_replicate, List.length_cons,
      List.length_nil]
    omega

theorem jsSet_getD (l : List (Option ℚ)) (i : ℕ) (v : ℚ) (j : ℕ) (h : j ≠ i) :
    (jsSet l i v).getD j none = l.getD j none := by
  unfold jsSet
  split
  case isTrue hi =>
    rw [List.getD_eq_getElem?_getD, List.getD_eq_getElem?_getD,
      List.getElem?_set_ne (Ne.symm h)]
  case isFalse hi =>
    have hlen2 : (l ++ List.replicate (i - l.length) none).length = i := by
      simp only [List.length_append, List.length_replicate]
      omega
    rcases Nat.lt_or_ge j l.length with hj | hj
    · have h1 : j < (l ++ List.replicate (i - l.length) none).length := by omega
      rw [List.getD_eq_getElem?_getD, List.getD_eq_getElem?_getD,
        List.getElem?_append_left h1, List.getElem?_append_left hj]
    · rw [List.getD_eq_default _ _ hj]
      rcases Nat.lt_or_ge j i with hji | hji
      · have h1 : j < (l ++ List.replicate (i - l.length) none).length := by omega
        rw [List.getD_eq_getElem?_getD, List.getElem?_append_left h1,
          List.getElem?_append_right hj, List.getElem?_replicate, if_pos (by omega)]
        rfl
      · have h1 : (l ++ List.replicate (i - l.length) none ++ [some v]).length ≤ j := by
          simp only [List.length_append, List.length_replicate, List.length_cons,
            List.length_nil]
          omega
        rw [List.getD_eq_default _ _ h1]

theorem writePoint_length_pos (point : List ℚ) : ∀ (feats : List (Option ℚ)) (base : ℕ),
    point ≠ [] →
    (writePoint feats base point).length = max feats.length (base + point.length) := by
  induction point with
  | nil => intro _ _ hne; exact absurd rfl hne
  | cons v rest ih =>
    intro feats base _
    cases rest with
    | nil =>
      show (jsSet feats base v).length = _
      rw [jsSet_length]
      simp only [List.length_cons, List.length_nil]
    | cons w rest2 =>
      show (writePoint (jsSet feats base v) (base + 1) (w :: rest2)).length = _
      rw [ih _ _ (List.cons_ne_nil _ _), jsSet_length]
      simp only [List.length_cons]
      omega

theorem writePoint_getD (point : List ℚ) : ∀ (feats : List (Option ℚ)) (base j : ℕ),
    (j < base ∨ base + point.length ≤ j) →
    (writePoint feats base point).getD j none = feats.getD j none := by
  induction point with
  | nil => intro feats base j _; rfl
  | cons v rest ih =>
    intro feats base j h
    simp only [List.length_cons] at h
    simp only [writePoint]
    rw [ih _ (base + 1) j (by omega), jsSet_getD _ _ _ _ (by omega)]

theorem writeFrame_length3 (feats : List (Option ℚ)) (t : ℕ) (point : List ℚ)
    (hp : point.length = 3) :
    (writeFrame feats t point).length = max feats.length (3 * t + 3) := by
  have hne : point ≠ [] := by
    intro hnil
    rw [hnil] at hp
    exact absurd hp (by decide)
  simp only [writeFrame]
  rw [if_pos (by omega), writePoint_length_pos _ _ _ hne, hp]

theorem extractFeaturesAux_length (buffer : List (List ℚ)) :
    ∀ (feats : List (Option ℚ)) (t : ℕ), (∀ p ∈ buffer, p.length = 3) →
    3 * t ≤ feats.length →
    (extractFeaturesAux feats t buffer).length = max feats.length (3 * (t + buffer.length)) := by
  induction buffer with
  | nil =>
    intro feats t _ hle
    simp only [extractFeaturesAux, List.length_nil]
    omega
  | cons p rest ih =>
    intro feats t h3 hle
    have hp : p.length = 3 := h3 p (by simp)
    simp only [extractFeaturesAux, List.length_cons]
    rw [ih _ (t + 1) (fun q hq => h3 q (by simp [hq]))
      (by rw [writeFrame_length3 _ _ _ hp]; omega)]
    rw [writeFrame_length3 _ _ _ hp]
    omega

theorem extractFeaturesAux_getD (buffer : List (List ℚ)) :
    ∀ (feats : List (Option ℚ)) (t j : ℕ), (∀ p ∈ buffer, p.length = 3) →
    (j < 3 * t ∨ 3 * (t + buffer.length) ≤ j) →
    (extractFeaturesAux feats t buffer).getD j none = feats.getD j none := by
  induction buffer with
  | nil => intro feats t j _ _; rfl
  | cons p rest ih =>
    intro feats t j h3 h
    have hp : p.length = 3 := h3 p (by simp)
    simp only [List.length_cons] at h
    simp only [extractFeaturesAux]
    rw [ih _ (t + 1) j (fun q hq => h3 q (by simp [hq])) (by omega)]
    simp only [writeFrame, hp]
    rw [if_pos (by omega), writePoint_getD _ _ _ _ (by omega)]

/-! ## Claims about the windowing function (C1) -/

/-- Claim C1 counterexample: on a buffer of 12 frames of 3 features each,
`extractFeatures` does not return a vector of length 30 — the writes past
index 29 extend the JavaScript array to length 36, so overlong input
extends the output instead of being truncated. -/
theorem extractFeatures_overlong_extends :
    (extractFeatures (List.replicate 12 ([1, 1, 1] : List ℚ))).length = 36 ∧
    (extractFeatures (List.replicate 12 ([1, 1, 1] : List ℚ))).length ≠ 30 := by
  constructor <;> decide

/-- Claim C1 (amended): for a buffer of frames of 3 features each,
`extractFeatures` returns a vector of length `max 30 (3 * buffer.length)` —
exactly 30 (with every entry from offset `3 * buffer.length` on still zero)
when the buffer has at most 10 frames, but *extended* beyond 30 entries by
an overlong buffer (e.g. 36 entries for 12 frames) rather than truncated. -/
theorem extractFeatures_window (buffer : List (List ℚ))
    (h3 : ∀ p ∈ buffer, p.length = 3) :
    (extractFeatures buffer).length = max 30 (3 * buffer.length) ∧
    ∀ i, 3 * buffer.length ≤ i → i < 30 →
      (extractFeatures buffer).getD i none = some 0 := by
  constructor
  · rw [extractFeatures, extractFeaturesAux_length buffer _ 0 h3 (by simp)]
    simp
  · intro i hi hi30
    rw [extractFeatures, extractFeaturesAux_getD buffer _ 0 i h3 (by omega),
      List.getD_eq_getElem?_getD, List.getElem?_replicate, if_pos hi30]
    rfl

/-- Witness for the amended C1 at a buffer of 5 frames: the output has
length 30 and its tail (here entry 20) is still zero. -/
theorem extractFeatures_window_witness :
    (extractFeatures (List.replicate 5 ([1, 2, 3] : List ℚ))).length =
      max 30 (3 * (List.replicate 5 ([1, 2, 3] : List ℚ)).length) ∧
    (extractFeatures (List.replicate 5 ([1, 2, 3] : List ℚ))).getD 20 none = some 0 :=
  ⟨(extractFeatures_window _ (by decide)).1,
   (extractFeatures_window _ (by decide)).2 20 (by decide) (by decide)⟩

/-! ## Claims about normalization (C2) -/

/-- 21 landmarks: a wrist with `z = 1` and twenty points with `z = 2`. -/
def zProbeLandmarks : List Pt := ⟨0, 0, some 1⟩ :: List.replicate 20 ⟨0, 0, some 2⟩

theorem normPt_translate_xy (base a : Pt) (dx dy dz : ℚ) :
    ((normPt (translate dx dy dz base) (translate dx dy dz a)).x,
      (normPt (translate dx dy dz base) (translate dx dy dz a)).y) =
    ((normPt base a).x, (normPt base a).y) := by
  simp only [normPt, translate, Prod.mk.injEq]
  constructor <;> ring

theorem normPt_translate (base a : Pt) (dx dy dz : ℚ)
    (hz : zTruthyStable dz a = true) :
    normPt (translate dx dy dz base) (translate dx dy dz a) = normPt base a := by
  cases ha : a.z with
  | none =>
    simp only [normPt, translate, ha, Option.map_none', truthy, Pt.mk.injEq]
    refine ⟨by ring, by ring, rfl⟩
  | some v =>
    rw [zTruthyStable, ha] at hz
    simp only [Bool.and_eq_true, decide_eq_true_eq] at hz
    simp only [normPt, translate, ha, Option.map_some', truthy, Pt.mk.injEq,
      decide_eq_true_eq]
    refine ⟨by ring, by ring, ?_⟩
    rw [if_pos hz.2, if_pos hz.1]
    cases base.z with
    | none => rfl
    | some b =>
      simp only [Option.map_some', jsSub, Option.some.injEq]
      ring

/-- Claim C2 counterexample: translating all 21 landmarks by the constant
offset `(0, 0, -2)` changes the normalized output, because the point whose
`z` lands on `0` becomes falsy and its normalized `z` collapses to `0`. -/
theorem normalize_translation_counterexample :
    normalizeCoordinates (zProbeLandmarks.map (translate 0 0 (-2))) ≠
      normalizeCoordinates zProbeLandmarks := by
  intro h
  have h1 := congrArg (fun l => (l.getD 1 ptZero).z) h
  simp only [zProbeLandmarks, normalizeCoordinates, List.replicate_succ,
    List.map_cons, List.headD_cons, List.getD_cons_succ, List.getD_cons_zero,
    normPt, translate, truthy, jsSub, Option.map_some'] at h1
  norm_num at h1

/-- Claim C2 (amended): the `x` and `y` components of the normalized output
are translation-invariant for every offset; the full output (including `z`,
which the code computes as `point.z ? point.z - base.z : 0`, not
`(point.z ?? 0) - (base.z ?? 0)`) is invariant provided the `z` of every
landmark, when present, is nonzero both before and after adding the offset. -/
theorem normalize_translation_amended (L : List Pt) (dx dy dz : ℚ) :
    ((normalizeCoordinates (L.map (translate dx dy dz))).map (fun p => (p.x, p.y)) =
      (normalizeCoordinates L).map (fun p => (p.x, p.y))) ∧
    ((∀ p ∈ L, zTruthyStable dz p = true) →
      normalizeCoordinates (L.map (translate dx dy dz)) = normalizeCoordinates L) := by
  cases L with
  | nil => exact ⟨rfl, fun _ => rfl⟩
  | cons p0 rest =>
    constructor
    · simp only [normalizeCoordinates, List.map_cons, List.headD_cons, List.map_map]
      congr 1
      · exact normPt_translate_xy p0 p0 dx dy dz
      · exact List.map_congr_left (fun a _ => normPt_translate_xy p0 a dx dy dz)
    · intro hz
      simp only [normalizeCoordinates, List.map_cons, List.headD_cons, List.map_map]
      congr 1
      · exact normPt_translate p0 p0 dx dy dz (hz p0 (by simp))
      · exact List.map_congr_left
          (fun a ha => normPt_translate p0 a dx dy dz (hz a (by simp [ha])))

/-- Witness for the amended C2: on the 21 probe landmarks, whose `z` values
(1 and 2) stay nonzero under the offset 5, the translated input normalizes
to the same output. -/
theorem normalize_translation_amended_witness :
    normalizeCoordinates (zProbeLandmarks.map (translate 3 4 5)) =
      normalizeCoordinates zProbeLandmarks :=
  (normalize_translation_amended zProbeLandmarks 3 4 5).2 (by
    intro p hp
    simp only [zProbeLandmarks, List.mem_cons, List.mem_replicate] at hp
    rcases hp with hp | ⟨-, hp⟩ <;>
      simp only [hp, zTruthyStable, Bool.and_eq_true, decide_eq_true_eq] <;>
      norm_num)

/-! ## Claims about the volume mapping (C3) -/

/-- Claim C3 counterexample: at `landmarks[8].x = 2` the displayed percent
computed by the code is `min(100, round(-100)) = -100`, not the value
`0` demanded by clamping to `[0, 100]` — the code has no lower clamp. -/
theorem volume_display_not_clamped_below :
    volumeDisplayed 2 = -100 ∧ claimVolumeDisplayed 2 = 0 ∧
      volumeDisplayed 2 ≠ claimVolumeDisplayed 2 := by
  refine ⟨?_, ?_, ?_⟩ <;> norm_num [volumeDisplayed, claimVolumeDisplayed, jsToFixed0]

/-- Claim C3 (amended): the displayed percent is `round((1 - x) * 100)`
capped *above* at 100 but not clamped below (for `x ≤ 1` the two agree, so
`x = 0.3` displays 70 and `x = -0.2` displays 100), and the dispatcher
hands the audio engine the raw unclamped `1 - x` independently of the
rounded display percent, as the volume branch of the per-hand dispatch
shows. -/
theorem volume_mapping_amended (x : ℚ) (category : String) (lms : List Pt) :
    (x ≤ 1 → volumeDisplayed x = claimVolumeDisplayed x) ∧
    volumeDisplayed (3 / 10) = 70 ∧
    volumeDisplayed (-(1 / 5)) = 100 ∧
    volumeRaw (3 / 10) = 7 / 10 ∧
    volumeRaw (-(1 / 5)) = 6 / 5 ∧
    handBody oVol true ⟨category, "Right", lms⟩ =
      [Effect.fsmUpdate category "Right", Effect.fsmLoopRegions,
       Effect.displayVolume (volumeDisplayed (lms.getD 8 ptZero).x),
       Effect.audioSetVolume (volumeRaw (lms.getD 8 ptZero).x)] := by
  refine ⟨?_, ?_, ?_, ?_, ?_, ?_⟩
  · intro hx
    have h0 : (0 : ℤ) ≤ jsToFixed0 ((1 - x) * 100) := by
      rw [jsToFixed0]
      refine Int.floor_nonneg.mpr ?_
      nlinarith
    rw [volumeDisplayed, claimVolumeDisplayed]
    omega
  · norm_num [volumeDisplayed, jsToFixed0]
  · norm_num [volumeDisplayed, jsToFixed0]
  · norm_num [volumeRaw]
  · norm_num [volumeRaw]
  · rfl

/-- Witness for the amended C3 at `x = 1/2` (an in-range landmark), where
the displayed percent also matches the clamped form. -/
theorem volume_mapping_amended_witness :
    volumeDisplayed (1 / 2) = claimVolumeDisplayed (1 / 2) ∧
      volumeDisplayed (3 / 10) = 70 :=
  ⟨(volume_mapping_amended (1 / 2) "" []).1 (by norm_num),
   (volume_mapping_amended (1 / 2) "" []).2.1⟩

/-! ## Claim about the stored label (C4) -/

/-- A recording session whose user-entered label is `"wave"`, one captured
frame in the buffer, started at 1000 ms. -/
def c4State : RecState :=
  { isRecording := true, startTime := some 1000, frameBuffer := [[1, 2, 3]],
    gestures := [], label := "wave", timers := [], stops := [] }

/-- Claim C4: evaluating `stopRecording` at a state whose label input holds
`"wave"` shows the appended example carries the *string literal*
`"gestureLabel"` (line 143 quotes the variable name), not the
caller-supplied label. -/
theorem stopRecording_stores_literal_label :
    c4State.label = "wave" ∧
    (stopRecording 1500 c4State).gestures.map (fun g => (g.y, g.duration)) =
      [("gestureLabel", 500)] ∧
    "gestureLabel" ≠ "wave" := by
  refine ⟨rfl, rfl, by decide⟩

/-! ## Claims about the frame loop (C6) -/

/-- Claim C6 counterexample: in an iteration where the recognizer is not
ready the loop logs but does *not* re-arm — `requestAnimationFrame` is the
last statement of the ready branch only. -/
theorem frame_loop_not_ready_no_rearm :
    (predictWebcamStep false true false).loggedNotInitialized = true ∧
    (predictWebcamStep false true false).rearmed = false :=
  ⟨rfl, rfl⟩

/-- Claim C6 (amended): an iteration with the recognizer ready re-arms for
the next display refresh regardless of outcome (video not ready, or a
caught recognition error); an iteration with the recognizer not ready only
logs and schedules nothing — the loop is revived only externally. -/
theorem frame_loop_rearm_amended :
    ∀ videoReady recognitionThrows : Bool,
      (predictWebcamStep true videoReady recognitionThrows).rearmed = true ∧
      (predictWebcamStep false videoReady recognitionThrows).rearmed = false ∧
      (predictWebcamStep false videoReady recognitionThrows).loggedNotInitialized = true ∧
      (predictWebcamStep false videoReady recognitionThrows).recognized = false := by
  decide

/-! ## Claim about dispatch on zero hands (C7) -/

/-- Claim C7: on a detection result with zero hands, `performAction` writes
exactly the idle indicator to the status field and performs no call on the
audio engine or the gesture FSM. -/
theorem performAction_zero_hands (o : FsmOracle) (wf : Bool) (fr : DetectionFrame)
    (h : fr.hands = []) :
    performAction o wf (some fr) = [Effect.statusWrite idleStatus] := by
  simp [performAction, h]

/-- Witness for C7 at a concrete empty detection frame. -/
theorem performAction_zero_hands_witness :
    performAction oIdle true (some ⟨[]⟩) = [Effect.statusWrite idleStatus] :=
  performAction_zero_hands oIdle true ⟨[]⟩ rfl

/-! ## Claim about training error handling (C8) -/

/-- Claim C8: training on an empty example set is a skipped no-op with only
a log; a failure of the (asynchronous, caught) fitting run is logged and
leaves the current classifier — or its absence — unchanged; the classifier
is replaced exactly on successful completion. -/
theorem trainModel_failure_preserves_classifier {α : Type}
    (fit : List (List ℚ) → List (List ℚ) → Except String α)
    (gs : List Gesture) (cls : Option α) :
    (gs = [] → trainModel fit gs cls = (cls, .skippedEmpty)) ∧
    (∀ e, gs ≠ [] → fit (trainInputs gs) (trainLabels gs) = .error e →
      trainModel fit gs cls = (cls, .failed)) ∧
    (∀ m, gs ≠ [] → fit (trainInputs gs) (trainLabels gs) = .ok m →
      trainModel fit gs cls = (some m, .succeeded)) ∧
    ((trainModel fit gs cls).1 ≠ cls →
      ∃ m, fit (trainInputs gs) (trainLabels gs) = .ok m ∧
        (trainModel fit gs cls).1 = some m) := by
  refine ⟨?_, ?_, ?_, ?_⟩
  · intro h
    subst h
    rfl
  · intro e hne hfit
    have hlen : 0 < gs.length := List.length_pos.mpr hne
    simp only [trainModel]
    rw [if_pos hlen, hfit]
  · intro m hne hfit
    have hlen : 0 < gs.length := List.length_pos.mpr hne
    simp only [trainModel]
    rw [if_pos hlen, hfit]
  · intro hne
    by_cases hlen : 0 < gs.length
    · cases hfit : fit (trainInputs gs) (trainLabels gs) with
      | ok m =>
        refine ⟨m, rfl, ?_⟩
        simp only [trainModel]
        rw [if_pos hlen, hfit]
      | error e =>
        exfalso
        apply hne
        simp only [trainModel]
        rw [if_pos hlen, hfit]
    · exfalso
      apply hne
      simp only [trainModel]
      rw [if_neg hlen]

def fitConst : List (List ℚ) → List (List ℚ) → Except String ℕ :=
  fun _ _ => .ok 7

def fitFail : List (List ℚ) → List (List ℚ) → Except String ℕ :=
  fun _ _ => .error "shape mismatch"

def oneGesture : List Gesture := [⟨[[1, 2, 3]], "wave", 400⟩]

/-- Witness for C8: a skipped empty run, a caught failing run preserving
`some 5`, and a successful run installing the new classifier. -/
theorem trainModel_failure_preserves_classifier_witness :
    trainModel fitConst [] (none : Option ℕ) = (none, .skippedEmpty) ∧
    trainModel fitFail oneGesture (some 5) = (some 5, .failed) ∧
    trainModel fitConst oneGesture (none : Option ℕ) = (some 7, .succeeded) :=
  ⟨(trainModel_failure_preserves_classifier fitConst [] none).1 rfl,
   (trainModel_failure_preserves_classifier fitFail oneGesture (some 5)).2.1
     "shape mismatch" (by simp [oneGesture]) rfl,
   (trainModel_failure_preserves_classifier fitConst oneGesture none).2.2.1 7
     (by simp [oneGesture]) rfl⟩

/-! ## Claims about the single-keypoint feature vector (C9) -/

/-- Claim C9 counterexample: a *non-empty* list with fewer than 9 landmarks
does not return the three-element vector of the landmark at index 8 —
`landmarks[8]` is `undefined` and the `.x` access throws a `TypeError`. -/
theorem extractGestureFeatures_short_list_throws :
    extractGestureFeatures (some [⟨1, 2, some 3⟩]) = .error .typeError := rfl

/-- Claim C9 (amended): a null/undefined or empty landmark list yields the
five-element zero vector; a list with at least 9 landmarks yields the
three-element vector `[x, y, z or 0]` of the landmark at index 8 (so
captured feature vectors do not share one fixed length); a non-empty list
with fewer than 9 landmarks throws a `TypeError` instead of returning. -/
theorem extractGestureFeatures_amended (l : List Pt) :
    extractGestureFeatures none = .ok [0, 0, 0, 0, 0] ∧
    extractGestureFeatures (some []) = .ok [0, 0, 0, 0, 0] ∧
    (9 ≤ l.length →
      extractGestureFeatures (some l) =
        .ok [(l.getD 8 ptZero).x, (l.getD 8 ptZero).y, jsOr (l.getD 8 ptZero).z 0] ∧
      (extractGestureFeatures (some l)).map List.length = .ok 3) ∧
    (0 < l.length → l.length < 9 →
      extractGestureFeatures (some l) = .error .typeError) := by
  refine ⟨rfl, rfl, ?_, ?_⟩
  · intro h9
    have h8 : 8 < l.length := by omega
    have hget : l.get? 8 = some (l.getD 8 ptZero) := by
      rw [List.get?_eq_getElem?, List.getElem?_eq_getElem h8,
        List.getD_eq_getElem?_getD, List.getElem?_eq_getElem h8]
      rfl
    have hmain : extractGestureFeatures (some l) =
        .ok [(l.getD 8 ptZero).x, (l.getD 8 ptZero).y, jsOr (l.getD 8 ptZero).z 0] := by
      simp only [extractGestureFeatures]
      rw [if_neg (by omega), hget]
    exact ⟨hmain, by rw [hmain]; rfl⟩
  · intro h0 h9
    have hget : l.get? 8 = none := List.get?_eq_none.mpr (by omega)
    simp only [extractGestureFeatures]
    rw [if_neg (by omega), hget]

/-- Witness for the amended C9: a 9-landmark list returns the index-8
three-vector, and a 1-landmark list throws. -/
theorem extractGestureFeatures_amended_witness :
    extractGestureFeatures (some (List.replicate 9 (⟨1, 2, some 3⟩ : Pt))) =
      .ok [((List.replicate 9 (⟨1, 2, some 3⟩ : Pt)).getD 8 ptZero).x,
        ((List.replicate 9 (⟨1, 2, some 3⟩ : Pt)).getD 8 ptZero).y,
        jsOr ((List.replicate 9 (⟨1, 2, some 3⟩ : Pt)).getD 8 ptZero).z 0] ∧
    extractGestureFeatures (some [(⟨1, 2, some 3⟩ : Pt)]) = .error .typeError :=
  ⟨((extractGestureFeatures_amended _).2.2.1 (by simp)).1,
   (extractGestureFeatures_amended [(⟨1, 2, some 3⟩ : Pt)]).2.2.2 (by simp) (by simp)⟩

/-! ## Claims about the auto-stop timer (C5, C10) -/

theorem fireDue_of_none (t : ℕ) (s : RecState) (h : ∀ d ∈ s.timers, ¬ d < t) :
    fireDue t s = s := by
  unfold fireDue
  have hdue : s.timers.filter (fun d => decide (d < t)) = [] :=
    List.filter_eq_nil_iff.mpr (by intro a ha; simpa using h a ha)
  have hrest : s.timers.filter (fun d => !(decide (d < t))) = s.timers :=
    List.filter_eq_self.mpr (by intro a ha; simpa using h a ha)
  rw [hdue, hrest]
  rfl

theorem captureFrame_active (feat : List ℚ) (s : RecState) (h1 : s.isRecording = true)
    (h2 : timeTruthy s.startTime = true) :
    captureFrame feat s = { s with frameBuffer := s.frameBuffer ++ [feat] } := by
  unfold captureFrame
  rw [h1, h2]
  rfl

/-- The one-session timeline of the amended C5: start at `t0`, one captured
frame 100 ms later, no manual stop. -/
def sessionAlone (t0 : ℕ) : List (ℕ × Ext) :=
  [(t0, .toggle), (t0 + 100, .capture [1, 1, 1])]

/-- The manually stopped timeline of the amended C5: as `sessionAlone`, plus
a manual toggle at `tm`, before the 2000 ms deadline. -/
def sessionManualStop (t0 tm : ℕ) : List (ℕ × Ext) :=
  [(t0, .toggle), (t0 + 100, .capture [1, 1, 1]), (tm, .toggle)]

/-- The double-session timeline falsifying C5 as stated: a session started
at 100 ms is manually stopped at 600 ms; a second session starts at 700 ms
and captures a frame at 800 ms; nothing else happens. -/
def c5CexEvents : List (ℕ × Ext) :=
  [(100, .toggle), (150, .capture [1, 1, 1]), (600, .toggle), (700, .toggle),
   (800, .capture [2, 2, 2])]

/-- Claim C5 counterexample: the manual stop at 600 ms does *not* cancel the
pending auto-stop of the session started at 100 ms — when a second session
starts at 700 ms, the timer of the first session fires at its 2100 ms deadline
and a second stop acts, cutting the second session off after 1400 ms
(before its own 2700 ms deadline), so stops happen at 600 and 2100. -/
theorem recording_autostop_counterexample :
    (run c5CexEvents).stops = [600, 2100] ∧
    (run c5CexEvents).gestures.map (fun g => (g.y, g.duration)) =
      [("gestureLabel", 500), ("gestureLabel", 1400)] ∧
    100 + 2000 = 2100 ∧ 2100 < 700 + 2000 := by
  refine ⟨rfl, rfl, by omega⟩

/-- Claim C5 (amended): for a session started from a state with no pending
timers: held active it auto-stops exactly once, at its 2000 ms deadline,
appending one example of duration 2000; with a manual stop at `tm` before
the deadline, only that one stop acts and one example is appended — the
pending timer is not cancelled, but its recording-flag guard makes it fire
without effect as long as no new session is running when it fires. -/
theorem recording_autostop_amended (t0 tm : ℕ) (h0 : 0 < t0)
    (h1 : t0 + 100 < tm) (h2 : tm < t0 + 2000) :
    (run (sessionAlone t0)).stops = [t0 + 2000] ∧
    (run (sessionAlone t0)).gestures.map (fun g => (g.y, g.duration, g.x.length)) =
      [("gestureLabel", 2000, 1)] ∧
    (run (sessionManualStop t0 tm)).stops = [tm] ∧
    (run (sessionManualStop t0 tm)).gestures.map (fun g => (g.y, g.duration, g.x.length)) =
      [("gestureLabel", tm - t0, 1)] := by
  have htt : timeTruthy (some t0) = true := by
    simp only [timeTruthy, decide_eq_true_eq]
    omega
  have hA : stepEvent initState (t0, Ext.toggle) =
      ⟨true, some t0, [], [], "", [t0 + 2000], []⟩ := rfl
  have hB : stepEvent (⟨true, some t0, [], [], "", [t0 + 2000], []⟩ : RecState)
      (t0 + 100, Ext.capture [1, 1, 1]) =
      ⟨true, some t0, [[1, 1, 1]], [], "", [t0 + 2000], []⟩ := by
    show captureFrame [1, 1, 1]
        (fireDue (t0 + 100) ⟨true, some t0, [], [], "", [t0 + 2000], []⟩) = _
    rw [fireDue_of_none _ _ (by intro d hd; simp only [List.mem_singleton] at hd; omega)]
    rw [captureFrame_active _ _ rfl htt]
    rfl
  have hrunA : run (sessionAlone t0) =
      ⟨false, none, [[1, 1, 1]],
        [⟨[[1, 1, 1]], "gestureLabel", t0 + 2000 - t0⟩], "", [], [t0 + 2000]⟩ := by
    show fireAll (stepEvent (stepEvent initState (t0, Ext.toggle))
      (t0 + 100, Ext.capture [1, 1, 1])) = _
    rw [hA, hB]
    rfl
  have hC : stepEvent (⟨true, some t0, [[1, 1, 1]], [], "", [t0 + 2000], []⟩ : RecState)
      (tm, Ext.toggle) =
      ⟨false, none, [[1, 1, 1]], [⟨[[1, 1, 1]], "gestureLabel", tm - t0⟩], "",
        [t0 + 2000], [tm]⟩ := by
    show handleRecordButtonClick tm
        (fireDue tm ⟨true, some t0, [[1, 1, 1]], [], "", [t0 + 2000], []⟩) = _
    rw [fireDue_of_none _ _ (by intro d hd; simp only [List.mem_singleton] at hd; omega)]
    rfl
  have hrunB : run (sessionManualStop t0 tm) =
      ⟨false, none, [[1, 1, 1]], [⟨[[1, 1, 1]], "gestureLabel", tm - t0⟩], "",
        [], [tm]⟩ := by
    show fireAll (stepEvent (stepEvent (stepEvent initState (t0, Ext.toggle))
      (t0 + 100, Ext.capture [1, 1, 1])) (tm, Ext.toggle)) = _
    rw [hA, hB, hC]
    rfl
  refine ⟨by rw [hrunA], ?_, by rw [hrunB], by rw [hrunB]; rfl⟩
  rw [hrunA]
  show [("gestureLabel", t0 + 2000 - t0, 1)] = [("gestureLabel", 2000, 1)]
  have ht : t0 + 2000 - t0 = 2000 := by omega
  rw [ht]

/-- Witness for the amended C5 at `t0 = 1`, `tm = 1999`. -/
theorem recording_autostop_amended_witness :
    (run (sessionAlone 1)).stops = [1 + 2000] ∧
    (run (sessionAlone 1)).gestures.map (fun g => (g.y, g.duration, g.x.length)) =
      [("gestureLabel", 2000, 1)] ∧
    (run (sessionManualStop 1 1999)).stops = [1999] ∧
    (run (sessionManualStop 1 1999)).gestures.map
        (fun g => (g.y, g.duration, g.x.length)) =
      [("gestureLabel", 1999 - 1, 1)] :=
  recording_autostop_amended 1 1999 (by decide) (by decide) (by decide)

/-- The timeline exhibiting C10: a session started at 10 ms is manually
stopped at 500 ms; a second session starts at 900 ms and captures a frame
at 1000 ms. -/
def c10Events : List (ℕ × Ext) :=
  [(10, .toggle), (20, .capture [1, 1, 1]), (500, .toggle), (900, .toggle),
   (1000, .capture [2, 2, 2])]

/-- Claim C10: the auto-stop timer is only guarded, never cancelled — after
the first session (started 10 ms, manually stopped 500 ms), its stale timer
fires at 2010 ms while the second session (started 900 ms) is recording,
and stops that second session after 1110 ms, before the 2900 ms deadline
of the second session itself. -/
theorem stale_timer_stops_next_session :
    (run c10Events).stops = [500, 2010] ∧
    (run c10Events).gestures.map (fun g => (g.y, g.duration)) =
      [("gestureLabel", 490), ("gestureLabel", 1110)] ∧
    10 + 2000 = 2010 ∧ 900 < 2010 ∧ 2010 < 900 + 2000 := by
  refine ⟨rfl, rfl, by omega⟩

end TuneCrafter
